import Mathlib

/-!
Shallow embedding of the DXD drone-dashboard fleet simulation core.

Sources embedded here:
* the `App` component (drone roster state, alert lifecycle, the 50 ms
  movement tick, `handleDispatch`, response-time metrics),
* `findNearestDrone` from `StatusPanel.tsx`,
* the data model and initial roster from `mockData.ts`.

Modelling conventions: JavaScript numbers are real numbers (`ℝ`),
wall-clock values from `Date.now()` (milliseconds) are integers (`ℤ`),
`Math.round` is `round` (both are floor of x + 1/2), and the React state
variables of the `App` component are collected into one `SimState` record.
The timer-driven effects (alert generation, the movement interval, the
post-arrival settle timeout) become labelled transitions of a step
relation `Step`; each transition's guard is the condition under which the
corresponding timer callback runs in the source.
-/

namespace DXD

open Classical

/-- Drone status union type from `mockData.ts`. -/
inductive DroneStatus where
  | patrolling
  | responding
  | idle
  | returning
  deriving DecidableEq

/-- Alert category union type from `mockData.ts`. -/
inductive AlertType where
  | perimeter_breach
  | motion_detected
  | unauthorized_access
  deriving DecidableEq

/-- Alert severity union type from `mockData.ts`. -/
inductive Severity where
  | low
  | medium
  | high
  deriving DecidableEq

/-- Log entry category union type from `mockData.ts`. -/
inductive LogType where
  | patrol
  | alert
  | dispatch
  | arrival
  | system
  deriving DecidableEq

/-- The `Drone` interface from `mockData.ts`. -/
structure Drone where
  id : String
  name : String
  lat : ℝ
  lng : ℝ
  status : DroneStatus
  battery : ℝ
  speed : ℝ
  heading : ℝ
  sector : String

/-- The `Alert` interface from `mockData.ts` (timestamp as `Date.now()` ms). -/
structure Alert where
  id : String
  lat : ℝ
  lng : ℝ
  type : AlertType
  severity : Severity
  timestamp : ℤ
  description : String
  locationName : String

/-- The `LogEntry` interface from `mockData.ts`. -/
structure LogEntry where
  id : String
  timestamp : ℤ
  type : LogType
  message : String

/-- The `Metrics` interface from `App.tsx`. -/
structure Metrics where
  activeDrones : ℕ
  totalDrones : ℕ
  avgResponseTime : ℤ
  responseTimes : List ℤ
  alertsToday : ℕ

/-- The dispatch status union type `idle | en_route | on_scene` from `App.tsx`. -/
inductive DispatchStatus where
  | idle
  | enRoute
  | onScene
  deriving DecidableEq

/-- All React state variables of the `App` component, plus the
`dispatchStartTime` ref, gathered into one simulation state record. -/
structure SimState where
  drones : List Drone
  alert : Option Alert
  respondingDroneId : Option String
  logEntries : List LogEntry
  droneArrived : Bool
  alertResolved : Bool
  dispatchStatus : DispatchStatus
  metrics : Metrics
  responseTimeFlash : Bool
  dispatchStartTime : Option ℤ

/-- Drone `DXD-001` (`Alpha`) from `initialDrones` in `mockData.ts`. -/
def droneAlpha : Drone :=
  { id := "DXD-001", name := "Alpha", lat := 33.4240, lng := -111.9380,
    status := .patrolling, battery := 87, speed := 12, heading := 45,
    sector := "Sector A" }

/-- Drone `DXD-002` (`Bravo`) from `initialDrones` in `mockData.ts`. -/
def droneBravo : Drone :=
  { id := "DXD-002", name := "Bravo", lat := 33.4260, lng := -111.9410,
    status := .idle, battery := 95, speed := 0, heading := 0,
    sector := "Sector B" }

/-- Drone `DXD-003` (`Charlie`) from `initialDrones` in `mockData.ts`. -/
def droneCharlie : Drone :=
  { id := "DXD-003", name := "Charlie", lat := 33.4245, lng := -111.9430,
    status := .patrolling, battery := 72, speed := 15, heading := 180,
    sector := "Sector C" }

/-- Drone `DXD-004` (`Delta`) from `initialDrones` in `mockData.ts`. -/
def droneDelta : Drone :=
  { id := "DXD-004", name := "Delta", lat := 33.4270, lng := -111.9370,
    status := .patrolling, battery := 64, speed := 10, heading := 270,
    sector := "Sector D" }

/-- The fixed four-drone roster `initialDrones` from `mockData.ts`. -/
def initialDrones : List Drone := [droneAlpha, droneBravo, droneCharlie, droneDelta]

/-- Initial metrics state from `App.tsx`.  The source seeds `alertsToday` with
a random value in 4..6; that value is the parameter `alertsToday0`.
`avgResponseTime` starts at the sentinel `-1` ("no responses yet"). -/
def initialMetrics (alertsToday0 : ℕ) : Metrics :=
  { activeDrones := (initialDrones.filter (fun d => d.status ≠ DroneStatus.idle)).length,
    totalDrones := initialDrones.length,
    avgResponseTime := -1,
    responseTimes := [],
    alertsToday := alertsToday0 }

/-- Initial simulation state of the `App` component. -/
def initialState (alertsToday0 : ℕ) : SimState :=
  { drones := initialDrones,
    alert := none,
    respondingDroneId := none,
    logEntries := [],
    droneArrived := false,
    alertResolved := false,
    dispatchStatus := .idle,
    metrics := initialMetrics alertsToday0,
    responseTimeFlash := false,
    dispatchStartTime := none }

/-- A per-drone patrol configuration entry of `droneConfigs` in `App.tsx`:
either a patrol circle (center, radius, angular speed, phase offset) or a
fixed idle landing pad. -/
inductive DroneConfig where
  | patrol (centerLat centerLng radius speed offset : ℝ)
  | pad (lat lng : ℝ)

/-- The `droneConfigs` record from `App.tsx`: `DXD-001`/`DXD-003` patrol
circles, `DXD-002`/`DXD-004` idle landing pads. -/
noncomputable def droneConfigs : String → Option DroneConfig
  | "DXD-001" => some (.patrol 33.4265 (-111.9325) 0.0012 0.1 0)
  | "DXD-002" => some (.pad 33.4197 (-111.9342))
  | "DXD-003" => some (.patrol 33.4188 (-111.9345) 0.001 0.08 Real.pi)
  | "DXD-004" => some (.pad 33.4178 (-111.9362))
  | _ => none

/-- The `handleDispatch` function of `App.tsx` (lines 277-305).  Note that the
source performs no precondition check at all: it logs when both the drone and
an alert exist, and then unconditionally sets the responding id, dispatch
status, arrived flag, start time, and the target drone's status. -/
def handleDispatch (s : SimState) (droneId : String) (isManual : Bool) (now : ℤ) : SimState :=
  let droneOpt := s.drones.find? (fun d => d.id = droneId)
  let newLog : List LogEntry :=
    match droneOpt, s.alert with
    | some drone, some a =>
        s.logEntries ++
          [{ id := "log-" ++ toString now, timestamp := now, type := .dispatch,
             message :=
               if isManual then drone.id ++ " manually dispatched to " ++ a.locationName
               else drone.id ++ " dispatched to " ++ a.locationName }]
    | _, _ => s.logEntries
  { s with
    logEntries := newLog,
    respondingDroneId := some droneId,
    dispatchStatus := .enRoute,
    droneArrived := false,
    dispatchStartTime := some now,
    drones := s.drones.map (fun d =>
      if d.id = droneId then { d with status := .responding, speed := 25 } else d) }

/-- The `drones.filter(d => d.status === 'responding').length` count displayed
by `App.tsx` — the number of drones currently in `responding` status. -/
def countResponding (ds : List Drone) : ℕ :=
  (ds.filter (fun d => d.status = DroneStatus.responding)).length

/-- JavaScript `Math.atan2`, written out from `Real.arctan` (used only for the
`heading` field, which no claim inspects). -/
noncomputable def atan2 (y x : ℝ) : ℝ :=
  if 0 < x then Real.arctan (y / x)
  else if x < 0 ∧ 0 ≤ y then Real.arctan (y / x) + Real.pi
  else if x < 0 ∧ y < 0 then Real.arctan (y / x) - Real.pi
  else if x = 0 ∧ 0 < y then Real.pi / 2
  else if x = 0 ∧ y < 0 then -(Real.pi / 2)
  else 0

/-- JavaScript `%` on the non-negative operands used by the patrol branch. -/
noncomputable def jsMod (x y : ℝ) : ℝ := x - y * ((⌊x / y⌋ : ℤ) : ℝ)

/-- The `responding` branch of the movement tick in `App.tsx` (lines 138-206,
position/speed/heading part): compute the vector to the alert; if the distance
is below the 0.0002 arrival threshold, snap to the alert coordinates with
speed 0; otherwise move by the ratio `0.0003 / distance` along the vector
(the source applies no clamp to this ratio). -/
noncomputable def respondingUpdate (a : Alert) (d : Drone) : Drone :=
  let dLat := a.lat - d.lat
  let dLng := a.lng - d.lng
  let distance := Real.sqrt (dLat * dLat + dLng * dLng)
  if distance < 0.0002 then
    { d with lat := a.lat, lng := a.lng, speed := 0 }
  else
    let ratio := 0.0003 / distance
    { d with lat := d.lat + dLat * ratio, lng := d.lng + dLng * ratio,
             speed := 25, heading := atan2 dLng dLat * (180 / Real.pi) }

/-- The `returning` branch of the movement tick in `App.tsx` (lines 219-245):
head to the patrol center or the landing pad at step 0.0002 per tick; within
the 0.0002 threshold, snap there and become `patrolling` (patrol config) or
`idle` (pad config). -/
noncomputable def returningUpdate (cfg : DroneConfig) (d : Drone) : Drone :=
  let tLat := match cfg with | .patrol cLat _ _ _ _ => cLat | .pad lat _ => lat
  let tLng := match cfg with | .patrol _ cLng _ _ _ => cLng | .pad _ lng => lng
  let dLat := tLat - d.lat
  let dLng := tLng - d.lng
  let distance := Real.sqrt (dLat * dLat + dLng * dLng)
  if distance < 0.0002 then
    { d with lat := tLat, lng := tLng,
             status := match cfg with | .patrol _ _ _ _ _ => .patrolling | .pad _ _ => .idle,
             speed := match cfg with | .patrol _ _ _ _ _ => 12 | .pad _ _ => 0 }
  else
    let ratio := 0.0002 / distance
    { d with lat := d.lat + dLat * ratio, lng := d.lng + dLng * ratio, speed := 15 }

/-- The patrolling branch of the movement tick in `App.tsx` (lines 258-268):
circle around the configured center and drain the battery by 0.001 per tick,
floored at 20. -/
noncomputable def patrolUpdate (time cLat cLng radius sp offset : ℝ) (d : Drone) : Drone :=
  let angle := jsMod (time * sp + offset) (2 * Real.pi)
  { d with status := .patrolling,
           lat := cLat + Real.sin angle * radius,
           lng := cLng + Real.cos angle * radius,
           heading := jsMod (angle * 180 / Real.pi) 360,
           speed := 12,
           battery := max 20 (d.battery - 0.001) }

/-- The per-drone body of the movement tick in `App.tsx` (lines 136-269),
following the source's branch order: responding-with-alert, then idle, then
missing config, then returning, then idle pad, then patrol circle. -/
noncomputable def moveDrone (time : ℝ) (alert : Option Alert) (d : Drone) : Drone :=
  match alert, d.status with
  | some a, .responding => respondingUpdate a d
  | _, _ =>
    if d.status = DroneStatus.idle then d
    else
      match droneConfigs d.id with
      | none => d
      | some cfg =>
        if d.status = DroneStatus.returning then returningUpdate cfg d
        else
          match cfg with
          | .pad lat lng => { d with status := .idle, lat := lat, lng := lng, speed := 0 }
          | .patrol cLat cLng radius sp offset => patrolUpdate time cLat cLng radius sp offset d

/-- Distance from drone `d` to alert `a` exactly as the responding branch of
the tick computes it (`Math.sqrt(dLat*dLat + dLng*dLng)`). -/
noncomputable def respDist (a : Alert) (d : Drone) : ℝ :=
  Real.sqrt ((a.lat - d.lat) * (a.lat - d.lat) + (a.lng - d.lng) * (a.lng - d.lng))

/-- Iterated responding move: the position sequence of the dispatched drone
produced by repeated ticking while the alert stays active. -/
noncomputable def respondingIter (a : Alert) (d : Drone) : ℕ → Drone
  | 0 => d
  | n + 1 => respondingUpdate a (respondingIter a d n)

/-- The response-time sample of `App.tsx` line 159:
`Math.round((Date.now() - dispatchStartTime.current) / 1000)`. -/
def arrivalResponseTime (now start : ℤ) : ℤ :=
  round (((now - start : ℤ) : ℚ) / 1000)

/-- The metrics update on arrival in `App.tsx` (lines 160-168): append the
sample, recompute the average as the rounded arithmetic mean. -/
def updateMetricsOnArrival (m : Metrics) (responseTime : ℤ) : Metrics :=
  let newTimes := m.responseTimes ++ [responseTime]
  let avgTime := round ((newTimes.sum : ℚ) / (newTimes.length : ℚ))
  { m with responseTimes := newTimes, avgResponseTime := avgTime }

/-- The drone (if any) whose arrival branch fires in the current tick: a
responding drone within the 0.0002 threshold of the active alert, evaluated on
the pre-move positions just as the source checks `distance < 0.0002` on
`prevDrones`. -/
noncomputable def arrivingDrone (alert : Option Alert) (ds : List Drone) : Option Drone :=
  match alert with
  | none => none
  | some a => ds.find? (fun d => d.status = DroneStatus.responding ∧ respDist a d < 0.0002)

/-- One firing of the 50 ms movement interval of `App.tsx` (lines 131-274):
every drone moves via `moveDrone`; if a responding drone is within the arrival
threshold and the arrived flag is not yet set, the arrival block runs (set the
flag, dispatch status `on_scene`, log the arrival, and - when a dispatch start
time is recorded - append the response-time sample, flash, and clear the start
time).  The alert itself is not cleared here; that happens in the separate
2000 ms settle timeout modelled by `resolveAlert`. -/
noncomputable def tickFn (time : ℝ) (now : ℤ) (s : SimState) : SimState :=
  let newDrones := s.drones.map (moveDrone time s.alert)
  match s.alert, arrivingDrone s.alert s.drones, s.droneArrived with
  | some a, some d, false =>
    let base : SimState :=
      { s with drones := newDrones, droneArrived := true, dispatchStatus := .onScene,
               logEntries := s.logEntries ++
                 [{ id := "log-" ++ toString now, timestamp := now, type := .arrival,
                    message := d.id ++ " on scene at " ++ a.locationName ++ " - investigating" }] }
    match s.dispatchStartTime with
    | some st =>
        { base with metrics := updateMetricsOnArrival s.metrics (arrivalResponseTime now st),
                    responseTimeFlash := true, dispatchStartTime := none }
    | none => base
  | _, _, _ => { s with drones := newDrones }

/-- Spelled-out alert category, as logged by `App.tsx` line 106
(`newAlert.type.replace(/_/g, ' ')`). -/
def alertTypeText : AlertType → String
  | .perimeter_breach => "perimeter breach"
  | .motion_detected => "motion detected"
  | .unauthorized_access => "unauthorized access"

/-- One firing of the alert-generation timeout of `App.tsx` (lines 98-111).
The effect returns early when an alert exists and its cleanup clears the
pending timer, so this callback only ever runs with `alert = none`; that guard
lives on the `spawn` constructor of `Step`. -/
def spawnAlert (s : SimState) (a : Alert) : SimState :=
  { s with alert := some a,
           alertResolved := false,
           logEntries := s.logEntries ++
             [{ id := "log-" ++ toString a.timestamp, timestamp := a.timestamp,
                type := LogType.alert,
                message := "ALERT: " ++ alertTypeText a.type ++ " - " ++ a.locationName }],
           metrics := { s.metrics with alertsToday := s.metrics.alertsToday + 1 } }

/-- One firing of the 2000 ms settle timeout scheduled by the arrival block of
`App.tsx` (lines 176-186): clear the alert, mark it resolved, clear the
responder assignment and flags, and send the arrived drone (whose id the
callback captured) back as `returning` with speed 15. -/
def resolveAlert (s : SimState) (droneId : String) : SimState :=
  { s with alert := none,
           alertResolved := true,
           respondingDroneId := none,
           dispatchStatus := .idle,
           droneArrived := false,
           drones := s.drones.map (fun d =>
             if d.id = droneId then { d with status := .returning, speed := 15 } else d) }

/-- Distance from drone `d` to alert `a` exactly as `findNearestDrone` in
`StatusPanel.tsx` computes it
(`Math.sqrt(Math.pow(d.lat - alert.lat, 2) + Math.pow(d.lng - alert.lng, 2))`). -/
noncomputable def panelDist (a : Alert) (d : Drone) : ℝ :=
  Real.sqrt ((d.lat - a.lat) ^ 2 + (d.lng - a.lng) ^ 2)

/-- The callback of the `reduce` in `findNearestDrone` (`StatusPanel.tsx`
lines 61-71): keep the accumulator unless the current drone is strictly
nearer. -/
noncomputable def nearestFold (a : Alert) (nearest drone : Drone) : Drone :=
  if panelDist a drone < panelDist a nearest then drone else nearest

/-- The `findNearestDrone` query of `StatusPanel.tsx` (lines 55-72): `null`
without an alert; filter out `responding` drones; `null` when none remain;
otherwise fold the strict-minimum over the remaining drones (JavaScript
`reduce` with no initial value folds the tail starting from the head). -/
noncomputable def findNearestDrone (drones : List Drone) (alert : Option Alert) : Option Drone :=
  match alert with
  | none => none
  | some a =>
    match drones.filter (fun d => d.status ≠ DroneStatus.responding) with
    | [] => none
    | first :: rest => some (rest.foldl (nearestFold a) first)

/-- Count of currently active alerts (the `alert` state variable holds at most
one). -/
def alertCount (s : SimState) : ℕ :=
  match s.alert with
  | none => 0
  | some _ => 1

/-- Labels for the externally triggered events of the simulation core. -/
inductive Label where
  | tick (time : ℝ) (now : ℤ)
  | dispatch (droneId : String) (isManual : Bool) (now : ℤ)
  | spawn (a : Alert)
  | resolve (droneId : String)

/-- Labelled transition relation of the simulation core.  Guards reflect the
conditions under which the corresponding timer callback can run in the
source: alert generation only fires while no alert exists (the effect returns
early otherwise and is cleaned up when `alert` changes), and the settle
timeout only exists after the arrival block set `droneArrived`. -/
inductive Step : SimState → Label → SimState → Prop where
  | tick (s : SimState) (t : ℝ) (now : ℤ) : Step s (.tick t now) (tickFn t now s)
  | dispatch (s : SimState) (i : String) (m : Bool) (now : ℤ) :
      Step s (.dispatch i m now) (handleDispatch s i m now)
  | spawn (s : SimState) (a : Alert) (h : s.alert = none) : Step s (.spawn a) (spawnAlert s a)
  | resolve (s : SimState) (i : String) (h : s.droneArrived = true) :
      Step s (.resolve i) (resolveAlert s i)

/-- Reachability by any sequence of simulation events. -/
def Reaches (s s' : SimState) : Prop :=
  Relation.ReflTransGen (fun x y => ∃ l, Step x l y) s s'

/-- A concrete alert at Old Main, of the shape `generateAlert` produces. -/
def demoAlert : Alert :=
  { id := "ALERT-1", lat := 33.4255, lng := -111.9325, type := .perimeter_breach,
    severity := .high, timestamp := 0,
    description := "Perimeter breach detected at Old Main", locationName := "Old Main" }

/-- A drone currently responding (used to instantiate universally quantified
theorems at a concrete busy drone). -/
def busyDrone : Drone :=
  { id := "DXD-001", name := "Alpha", lat := 33.4240, lng := -111.9380,
    status := .responding, battery := 87, speed := 25, heading := 45,
    sector := "Sector A" }

/-- A drone at the origin, used for concrete responding-move computations. -/
def originDrone : Drone :=
  { id := "DXD-009", name := "Origin", lat := 0, lng := 0,
    status := .responding, battery := 80, speed := 25, heading := 0,
    sector := "Sector T" }

/-- An alert 0.0001 away from `originDrone` (inside the arrival threshold). -/
def nearAlert : Alert :=
  { id := "ALERT-N", lat := 0.0001, lng := 0, type := .motion_detected,
    severity := .high, timestamp := 0, description := "near", locationName := "Near" }

/-- An alert 0.00025 away from `originDrone`: outside the 0.0002 arrival
threshold but closer than the 0.0003 step length. -/
def midAlert : Alert :=
  { id := "ALERT-M", lat := 0.00025, lng := 0, type := .motion_detected,
    severity := .high, timestamp := 0, description := "mid", locationName := "Mid" }

/-! Helper lemmas shared by the claim theorems. -/

/-- The responding branch never changes the drone's status field. -/
lemma respondingUpdate_status (a : Alert) (d : Drone) :
    (respondingUpdate a d).status = d.status := by
  unfold respondingUpdate
  dsimp only
  split <;> rfl

/-- The returning branch never produces a `responding` status. -/
lemma returningUpdate_status_imp (cfg : DroneConfig) (d : Drone) :
    (returningUpdate cfg d).status = DroneStatus.responding →
      d.status = DroneStatus.responding := by
  cases cfg <;> unfold returningUpdate <;> dsimp only <;> split <;> intro h <;> simp_all

/-- A tick's per-drone move never turns a non-responding drone into a
responding one. -/
lemma moveDrone_status_imp (t : ℝ) (al : Option Alert) (d : Drone) :
    (moveDrone t al d).status = DroneStatus.responding →
      d.status = DroneStatus.responding := by
  unfold moveDrone
  split
  · intro _; simp_all
  · split
    · exact fun h => h
    · split
      · exact fun h => h
      · split
        · exact returningUpdate_status_imp _ _
        · split
          · simp
          · intro h
            exact absurd h (by simp [patrolUpdate])

/-- The tick updates the drone list exactly by mapping the per-drone move. -/
lemma tickFn_drones (t : ℝ) (now : ℤ) (s : SimState) :
    (tickFn t now s).drones = s.drones.map (moveDrone t s.alert) := by
  unfold tickFn
  split
  · split <;> rfl
  · rfl

/-- The tick leaves the active alert untouched. -/
lemma tickFn_alert (t : ℝ) (now : ℤ) (s : SimState) :
    (tickFn t now s).alert = s.alert := by
  unfold tickFn
  split
  · rename_i a d heq
    split <;> simp_all
  · rfl

/-- Mapping a status-nonincreasing function over a roster cannot increase the
responding count. -/
lemma countResponding_map_le (f : Drone → Drone)
    (hf : ∀ d : Drone, (f d).status = DroneStatus.responding →
      d.status = DroneStatus.responding)
    (l : List Drone) : countResponding (l.map f) ≤ countResponding l := by
  unfold countResponding
  rw [← List.countP_eq_length_filter, ← List.countP_eq_length_filter, List.countP_map]
  apply List.countP_mono_left
  intro d _ h
  simp only [Function.comp_apply, decide_eq_true_eq] at h ⊢
  exact hf d h

/-- In a roster with pairwise distinct ids, at most one drone matches a given
id. -/
lemma countP_id_le_one (i : String) (l : List Drone)
    (h : (l.map Drone.id).Nodup) :
    l.countP (fun d => decide (d.id = i)) ≤ 1 := by
  induction l with
  | nil => simp
  | cons x xs ih =>
    rw [List.map_cons, List.nodup_cons] at h
    by_cases hx : x.id = i
    · have hzero : xs.countP (fun d => decide (d.id = i)) = 0 := by
        rw [List.countP_eq_zero]
        intro d hd
        simp only [decide_eq_true_eq]
        intro hdi
        exact h.1 (by rw [hx, ← hdi]; exact List.mem_map_of_mem Drone.id hd)
      rw [List.countP_cons]
      simp [hx, hzero]
    · rw [List.countP_cons]
      simp only [hx, decide_False, if_false, decide_eq_true_eq, add_zero]
      exact ih h.2

/-- The tick's arrival-threshold distance is a square root, hence
non-negative. -/
lemma respDist_nonneg (a : Alert) (d : Drone) : 0 ≤ respDist a d :=
  Real.sqrt_nonneg _

/-- Within the arrival threshold, the responding branch snaps the drone to the
alert position with speed 0. -/
lemma respondingUpdate_eq_snap (a : Alert) (d : Drone) (h : respDist a d < 0.0002) :
    respondingUpdate a d = { d with lat := a.lat, lng := a.lng, speed := 0 } := by
  unfold respondingUpdate
  dsimp only
  rw [show Real.sqrt ((a.lat - d.lat) * (a.lat - d.lat) + (a.lng - d.lng) * (a.lng - d.lng))
        = respDist a d from rfl]
  rw [if_pos h]

/-- Outside the arrival threshold, the responding branch moves the drone by
the unclamped ratio `0.0003 / distance` along the vector to the alert. -/
lemma respondingUpdate_eq_move (a : Alert) (d : Drone) (h : ¬ respDist a d < 0.0002) :
    respondingUpdate a d =
      { d with lat := d.lat + (a.lat - d.lat) * (0.0003 / respDist a d),
               lng := d.lng + (a.lng - d.lng) * (0.0003 / respDist a d),
               speed := 25,
               heading := atan2 (a.lng - d.lng) (a.lat - d.lat) * (180 / Real.pi) } := by
  unfold respondingUpdate
  dsimp only
  rw [show Real.sqrt ((a.lat - d.lat) * (a.lat - d.lat) + (a.lng - d.lng) * (a.lng - d.lng))
        = respDist a d from rfl]
  rw [if_neg h]

/-- Exact effect of one responding move on the distance to the alert: snap to
distance 0 inside the threshold, otherwise the new distance is
`|d - 0.0003|` (the absolute value records the possible overshoot when
`0.0002 ≤ d < 0.0003`). -/
lemma respondingUpdate_dist (a : Alert) (d : Drone) :
    respDist a (respondingUpdate a d)
      = if respDist a d < 0.0002 then 0 else |respDist a d - 0.0003| := by
  by_cases h : respDist a d < 0.0002
  · rw [if_pos h, respondingUpdate_eq_snap a d h]
    show Real.sqrt ((a.lat - a.lat) * (a.lat - a.lat) + (a.lng - a.lng) * (a.lng - a.lng)) = 0
    simp
  · rw [if_neg h, respondingUpdate_eq_move a d h]
    rw [show respDist a
          { d with lat := d.lat + (a.lat - d.lat) * (0.0003 / respDist a d),
                   lng := d.lng + (a.lng - d.lng) * (0.0003 / respDist a d),
                   speed := 25,
                   heading := atan2 (a.lng - d.lng) (a.lat - d.lat) * (180 / Real.pi) }
        = Real.sqrt
            ((a.lat - (d.lat + (a.lat - d.lat) * (0.0003 / respDist a d)))
              * (a.lat - (d.lat + (a.lat - d.lat) * (0.0003 / respDist a d)))
            + (a.lng - (d.lng + (a.lng - d.lng) * (0.0003 / respDist a d)))
              * (a.lng - (d.lng + (a.lng - d.lng) * (0.0003 / respDist a d)))) from rfl]
    set D := respDist a d with hD
    have hD0 : 0 ≤ D := respDist_nonneg a d
    have hDpos : 0 < D := lt_of_lt_of_le (by norm_num : (0:ℝ) < 0.0002) (not_lt.mp h)
    have e1 : a.lat - (d.lat + (a.lat - d.lat) * (0.0003 / D))
        = (a.lat - d.lat) * (1 - 0.0003 / D) := by ring
    have e2 : a.lng - (d.lng + (a.lng - d.lng) * (0.0003 / D))
        = (a.lng - d.lng) * (1 - 0.0003 / D) := by ring
    rw [e1, e2]
    have e3 : ((a.lat - d.lat) * (1 - 0.0003 / D)) * ((a.lat - d.lat) * (1 - 0.0003 / D))
        + ((a.lng - d.lng) * (1 - 0.0003 / D)) * ((a.lng - d.lng) * (1 - 0.0003 / D))
        = (1 - 0.0003 / D) ^ 2
            * ((a.lat - d.lat) * (a.lat - d.lat) + (a.lng - d.lng) * (a.lng - d.lng)) := by
      ring
    rw [e3, Real.sqrt_mul (sq_nonneg _), Real.sqrt_sq_eq_abs]
    have e4 : Real.sqrt ((a.lat - d.lat) * (a.lat - d.lat) + (a.lng - d.lng) * (a.lng - d.lng))
        = D := by rw [hD]; rfl
    rw [e4]
    calc |1 - 0.0003 / D| * D = |(1 - 0.0003 / D) * D| := by
          rw [abs_mul, abs_of_nonneg hD0]
      _ = |D - 0.0003| := by rw [sub_mul, one_mul, div_mul_cancel₀ _ (ne_of_gt hDpos)]

/-- One responding move never increases the distance to the alert. -/
lemma respondingUpdate_dist_le (a : Alert) (d : Drone) :
    respDist a (respondingUpdate a d) ≤ respDist a d := by
  rw [respondingUpdate_dist]
  by_cases h : respDist a d < 0.0002
  · rw [if_pos h]
    exact respDist_nonneg a d
  · rw [if_neg h]
    have hd : 0.0002 ≤ respDist a d := not_lt.mp h
    apply abs_le.mpr
    constructor <;> linarith

/-- After `n` responding moves, the distance is bounded by
`max (d0 - n * 0.0003) 0.0001`. -/
lemma respondingIter_dist_bound (a : Alert) (d : Drone) (n : ℕ) :
    respDist a (respondingIter a d n) ≤ max (respDist a d - n * 0.0003) 0.0001 := by
  induction n with
  | zero =>
    simp [respondingIter]
  | succ n ih =>
    show respDist a (respondingUpdate a (respondingIter a d n)) ≤ _
    rw [respondingUpdate_dist]
    set Dn := respDist a (respondingIter a d n) with hDn
    by_cases h : Dn < 0.0002
    · rw [if_pos h]
      exact le_max_of_le_right (by norm_num)
    · rw [if_neg h]
      have h2 : 0.0002 ≤ Dn := not_lt.mp h
      have hcase : Dn ≤ respDist a d - n * 0.0003 := by
        rcases max_cases (respDist a d - n * 0.0003) 0.0001 with ⟨heq, _⟩ | ⟨heq, _⟩
        · rw [heq] at ih; exact ih
        · rw [heq] at ih; linarith
      by_cases h3 : 0.0003 ≤ Dn
      · rw [abs_of_nonneg (by linarith)]
        apply le_max_of_le_left
        push_cast
        linarith
      · rw [abs_of_neg (by linarith)]
        apply le_max_of_le_right
        linarith

/-- Explicit tick bound: after `ceil(d0 / 0.0003)` responding moves the drone
is inside the 0.0002 arrival threshold. -/
lemma respondingIter_arrives (a : Alert) (d : Drone) :
    respDist a (respondingIter a d ⌈respDist a d / 0.0003⌉₊) < 0.0002 := by
  have hb := respondingIter_dist_bound a d ⌈respDist a d / 0.0003⌉₊
  have hceil : respDist a d / 0.0003 ≤ (⌈respDist a d / 0.0003⌉₊ : ℝ) := Nat.le_ceil _
  have hstep : respDist a d ≤ (⌈respDist a d / 0.0003⌉₊ : ℝ) * 0.0003 := by
    calc respDist a d = respDist a d / 0.0003 * 0.0003 := by norm_num
      _ ≤ (⌈respDist a d / 0.0003⌉₊ : ℝ) * 0.0003 :=
          mul_le_mul_of_nonneg_right hceil (by norm_num)
  calc respDist a (respondingIter a d ⌈respDist a d / 0.0003⌉₊)
      ≤ max (respDist a d - ⌈respDist a d / 0.0003⌉₊ * 0.0003) 0.0001 := hb
    _ ≤ 0.0001 := max_le (by linarith) le_rfl
    _ < 0.0002 := by norm_num

/-- Concrete distance evaluation: `originDrone` is exactly 0.00025 away from
`midAlert`. -/
lemma respDist_mid : respDist midAlert originDrone = 0.00025 := by
  show Real.sqrt ((0.00025 - 0) * (0.00025 - 0) + (0 - 0) * (0 - 0)) = 0.00025
  rw [show ((0.00025:ℝ) - 0) * (0.00025 - 0) + (0 - 0) * (0 - 0) = 0.00025 ^ 2 by norm_num]
  exact Real.sqrt_sq (by norm_num)

/-- Concrete distance evaluation: `originDrone` is exactly 0.0001 away from
`nearAlert`. -/
lemma respDist_near : respDist nearAlert originDrone = 0.0001 := by
  show Real.sqrt ((0.0001 - 0) * (0.0001 - 0) + (0 - 0) * (0 - 0)) = 0.0001
  rw [show ((0.0001:ℝ) - 0) * (0.0001 - 0) + (0 - 0) * (0 - 0) = 0.0001 ^ 2 by norm_num]
  exact Real.sqrt_sq (by norm_num)

/-- Unfolding equation for `findNearestDrone` when some drones are available. -/
lemma findNearestDrone_cons (drones : List Drone) (a : Alert) (first : Drone)
    (rest : List Drone)
    (hf : drones.filter (fun d => d.status ≠ DroneStatus.responding) = first :: rest) :
    findNearestDrone drones (some a) = some (rest.foldl (nearestFold a) first) := by
  unfold findNearestDrone
  rw [hf]

/-- Unfolding equation for `findNearestDrone` when every drone is busy. -/
lemma findNearestDrone_nil (drones : List Drone) (a : Alert)
    (hf : drones.filter (fun d => d.status ≠ DroneStatus.responding) = []) :
    findNearestDrone drones (some a) = none := by
  unfold findNearestDrone
  rw [hf]

/-- The strict-minimum left fold returns the first element of the list
achieving the minimum distance: everything before it in the list is strictly
farther, everything after it at least as far. -/
lemma foldl_nearestFold_firstMin (a : Alert) :
    ∀ (l : List Drone) (init : Drone),
      ∃ pre post,
        init :: l = pre ++ (l.foldl (nearestFold a) init) :: post
        ∧ (∀ x ∈ pre, panelDist a (l.foldl (nearestFold a) init) < panelDist a x)
        ∧ (∀ x ∈ post, panelDist a (l.foldl (nearestFold a) init) ≤ panelDist a x) := by
  intro l
  induction l with
  | nil =>
    intro init
    exact ⟨[], [], rfl, by simp, by simp⟩
  | cons x xs ih =>
    intro init
    rw [List.foldl_cons]
    by_cases h : panelDist a x < panelDist a init
    · rw [show nearestFold a init x = x from if_pos h]
      obtain ⟨pre, post, hdec, hpre, hpost⟩ := ih x
      have hr_le_x : panelDist a (xs.foldl (nearestFold a) x) ≤ panelDist a x := by
        cases pre with
        | nil =>
          rw [List.nil_append] at hdec
          injection hdec with h1 _
          rw [← h1]
        | cons p ps =>
          rw [List.cons_append] at hdec
          injection hdec with h1 _
          have := hpre p (List.mem_cons_self p ps)
          rw [← h1] at this
          exact le_of_lt this
      refine ⟨init :: pre, post, ?_, ?_, hpost⟩
      · rw [List.cons_append]
        exact congrArg (List.cons init) hdec
      · intro y hy
        rcases List.mem_cons.mp hy with rfl | hy'
        · exact lt_of_le_of_lt hr_le_x h
        · exact hpre y hy'
    · rw [show nearestFold a init x = init from if_neg h]
      obtain ⟨pre, post, hdec, hpre, hpost⟩ := ih init
      have hxle : panelDist a init ≤ panelDist a x := not_lt.mp h
      cases pre with
      | nil =>
        rw [List.nil_append] at hdec
        injection hdec with h1 h2
        refine ⟨[], x :: post, ?_, by simp, ?_⟩
        · rw [List.nil_append, ← h1, ← h2]
        · intro y hy
          rcases List.mem_cons.mp hy with rfl | hy'
          · rw [← h1]
            exact hxle
          · exact hpost y hy'
      | cons p ps =>
        rw [List.cons_append] at hdec
        injection hdec with h1 h2
        have hrinit : panelDist a (xs.foldl (nearestFold a) init) < panelDist a init := by
          have := hpre p (List.mem_cons_self p ps)
          rw [← h1] at this
          exact this
        refine ⟨init :: x :: ps, post, ?_, ?_, hpost⟩
        · rw [List.cons_append, List.cons_append]
          conv_lhs => rw [h2]
        · intro y hy
          rcases List.mem_cons.mp hy with rfl | hy'
          · exact hrinit
          rcases List.mem_cons.mp hy' with rfl | hy''
          · exact lt_of_lt_of_le hrinit hxle
          · exact hpre y (List.mem_cons_of_mem p hy'')

/-! Claim C1. -/

/-- Claim C1 (counterexample): in the initial state no alert is active, so the
dispatch preconditions fail, yet `handleDispatch` is not a no-op: it flips the
dispatch status from `idle` to `en_route` and sets a responding drone id. -/
theorem C1_dispatch_noop_cex :
    (initialState 4).alert = none
    ∧ (initialState 4).dispatchStatus = DispatchStatus.idle
    ∧ (handleDispatch (initialState 4) "DXD-001" false 0).dispatchStatus = DispatchStatus.enRoute
    ∧ (handleDispatch (initialState 4) "DXD-001" false 0).respondingDroneId
        ≠ (initialState 4).respondingDroneId := by
  refine ⟨rfl, rfl, rfl, ?_⟩
  intro h
  simp [handleDispatch, initialState] at h

/-- Claim C1 (amended): `handleDispatch` never crashes - it is a total
function - but it is not a no-op when the preconditions fail.  Regardless of
whether an alert is active or the target drone is already responding, it sets
the responding id, dispatch status `en_route`, clears the arrived flag,
records the start time, and maps the target drone to `responding`; only the
dispatch log entry is conditional (skipped when no alert is active). -/
theorem C1_dispatch_unconditional (s : SimState) (droneId : String) (isManual : Bool) (now : ℤ) :
    (handleDispatch s droneId isManual now).respondingDroneId = some droneId
    ∧ (handleDispatch s droneId isManual now).dispatchStatus = DispatchStatus.enRoute
    ∧ (handleDispatch s droneId isManual now).droneArrived = false
    ∧ (handleDispatch s droneId isManual now).dispatchStartTime = some now
    ∧ (handleDispatch s droneId isManual now).alert = s.alert
    ∧ (handleDispatch s droneId isManual now).metrics = s.metrics
    ∧ (handleDispatch s droneId isManual now).drones
        = s.drones.map (fun d =>
            if d.id = droneId then { d with status := .responding, speed := 25 } else d)
    ∧ (s.alert = none → (handleDispatch s droneId isManual now).logEntries = s.logEntries) := by
  refine ⟨rfl, rfl, rfl, rfl, rfl, rfl, rfl, ?_⟩
  intro h
  unfold handleDispatch
  cases hfind : s.drones.find? (fun d => d.id = droneId) <;> simp [h, hfind]

/-- Claim C1 witness: the no-log part of the amended claim applied to the
concrete initial state (no active alert). -/
theorem C1_dispatch_unconditional_witness :
    (handleDispatch (initialState 4) "DXD-001" false 0).logEntries
      = (initialState 4).logEntries :=
  (C1_dispatch_unconditional (initialState 4) "DXD-001" false 0).2.2.2.2.2.2.2 rfl

/-! Claim C2. -/

/-- Claim C2 (counterexample): from the initial roster, spawning an alert and
then dispatching `DXD-001` followed by `DXD-002` - a second dispatch while the
first drone is still responding to the same alert - reaches a state with two
responding drones. -/
theorem C2_two_responders_cex :
    Reaches (initialState 4)
      (handleDispatch
        (handleDispatch (spawnAlert (initialState 4) demoAlert) "DXD-001" false 0)
        "DXD-002" false 0)
    ∧ countResponding
        (handleDispatch
          (handleDispatch (spawnAlert (initialState 4) demoAlert) "DXD-001" false 0)
          "DXD-002" false 0).drones = 2 := by
  constructor
  · exact Relation.ReflTransGen.head ⟨_, Step.spawn _ demoAlert rfl⟩
      (Relation.ReflTransGen.head ⟨_, Step.dispatch _ "DXD-001" false 0⟩
        (Relation.ReflTransGen.single ⟨_, Step.dispatch _ "DXD-002" false 0⟩))
  · decide

/-- Claim C2 (amended): ticks and alert resolution never increase the number
of responding drones, and a dispatch issued from a state with no responding
drone (over a roster with distinct ids) leaves at most one; however, dispatch
performs no already-responding check, so a second dispatch of a different
drone while one is responding yields two responding drones (see the
counterexample). -/
theorem C2_single_responder (s : SimState) (t : ℝ) (now : ℤ) (i : String) (m : Bool) :
    countResponding (tickFn t now s).drones ≤ countResponding s.drones
    ∧ countResponding (resolveAlert s i).drones ≤ countResponding s.drones
    ∧ ((s.drones.map Drone.id).Nodup → countResponding s.drones = 0 →
        countResponding (handleDispatch s i m now).drones ≤ 1) := by
  refine ⟨?_, ?_, ?_⟩
  · rw [tickFn_drones]
    exact countResponding_map_le _ (moveDrone_status_imp t s.alert) s.drones
  · show countResponding (s.drones.map _) ≤ _
    apply countResponding_map_le
    intro d
    by_cases hd : d.id = i <;> simp [hd]
  · intro hnd h0
    show countResponding (s.drones.map _) ≤ 1
    unfold countResponding at *
    rw [← List.countP_eq_length_filter] at *
    rw [List.countP_map]
    calc s.drones.countP
            ((fun d => decide (d.status = DroneStatus.responding)) ∘ fun d =>
              if d.id = i then { d with status := .responding, speed := 25 } else d)
        = s.drones.countP (fun d => decide (d.id = i)) := by
          apply List.countP_congr
          intro d hd
          have hdns : ¬ d.status = DroneStatus.responding := by
            have := List.countP_eq_zero.mp h0 d hd
            simpa using this
          by_cases hid : d.id = i <;> simp [hid, hdns]
      _ ≤ 1 := countP_id_le_one i s.drones hnd

/-- Claim C2 witness: the dispatch part of the amended claim applied to the
concrete initial roster (distinct ids, nobody responding). -/
theorem C2_single_responder_witness :
    countResponding (handleDispatch (initialState 4) "DXD-001" false 0).drones ≤ 1 :=
  (C2_single_responder (initialState 4) 0 0 "DXD-001" false).2.2 (by decide) (by decide)

/-! Claim C5. -/

/-- Claim C5 (counterexample): the responding step is not clamped.  Starting
at `originDrone` (latitude 0) with the alert at latitude 0.00025 - distance
0.00025, outside the 0.0002 threshold - the step ratio is
`0.0003 / 0.00025 > 1` and one tick moves the drone to latitude 0.0003,
strictly past the target. -/
theorem C5_overshoot_cex :
    originDrone.lat < midAlert.lat
    ∧ (respondingUpdate midAlert originDrone).lat = 0.0003
    ∧ midAlert.lat < (respondingUpdate midAlert originDrone).lat := by
  have hd : respDist midAlert originDrone = 0.00025 := respDist_mid
  have hlat : (respondingUpdate midAlert originDrone).lat = 0.0003 := by
    rw [respondingUpdate_eq_move midAlert originDrone (by rw [hd]; norm_num)]
    show originDrone.lat
        + (midAlert.lat - originDrone.lat) * (0.0003 / respDist midAlert originDrone) = 0.0003
    rw [hd]
    show (0:ℝ) + (0.00025 - 0) * (0.0003 / 0.00025) = 0.0003
    norm_num
  refine ⟨?_, hlat, ?_⟩
  · show (0:ℝ) < 0.00025
    norm_num
  · rw [hlat]
    show (0.00025:ℝ) < 0.0003
    norm_num

/-- Claim C5 (amended): on each tick a responding drone moves toward the alert
by the step factor `0.0003 / distance` with no clamp; when the distance is
below the 0.0002 arrival threshold the position snaps exactly to the alert
coordinates; for distance at least 0.0003 the step cannot overshoot (new
distance is exactly `distance - 0.0003`); but for distances in
`[0.0002, 0.0003)` the step overshoots past the target, ending at distance
`0.0003 - distance`, which is below the arrival threshold, so the drone snaps
on the following tick. -/
theorem C5_step_behavior (a : Alert) (d : Drone) :
    (respDist a d < 0.0002 →
        (respondingUpdate a d).lat = a.lat ∧ (respondingUpdate a d).lng = a.lng
        ∧ (respondingUpdate a d).speed = 0)
    ∧ (0.0003 ≤ respDist a d →
        respDist a (respondingUpdate a d) = respDist a d - 0.0003)
    ∧ (0.0002 ≤ respDist a d → respDist a d < 0.0003 →
        respDist a (respondingUpdate a d) = 0.0003 - respDist a d
        ∧ 0.0003 - respDist a d < 0.0002) := by
  refine ⟨?_, ?_, ?_⟩
  · intro h
    rw [respondingUpdate_eq_snap a d h]
    exact ⟨rfl, rfl, rfl⟩
  · intro h
    rw [respondingUpdate_dist, if_neg (not_lt.mpr (by linarith))]
    rw [abs_of_nonneg (by linarith)]
  · intro h1 h2
    rw [respondingUpdate_dist, if_neg (not_lt.mpr h1)]
    constructor
    · rw [abs_of_neg (by linarith)]
      ring
    · linarith

/-- Claim C5 witness: the snap part applied to the concrete drone 0.0001 away
from `nearAlert` (inside the threshold). -/
theorem C5_step_behavior_witness :
    (respondingUpdate nearAlert originDrone).lat = nearAlert.lat
    ∧ (respondingUpdate nearAlert originDrone).lng = nearAlert.lng
    ∧ (respondingUpdate nearAlert originDrone).speed = 0 :=
  (C5_step_behavior nearAlert originDrone).1 (by rw [respDist_near]; norm_num)

/-! Claim C6. -/

/-- Claim C6: for a fixed alert position and a fixed dispatched drone, the
distance to the alert is non-increasing tick-over-tick, and the drone is
inside the 0.0002 arrival threshold after at most `ceil(d0 / 0.0003)` ticks,
where `d0` is the initial distance; moreover the per-tick position update of
the dispatched (responding) drone in the movement interval is exactly the
iterated responding move. -/
theorem C6_monotone_convergence (a : Alert) (d : Drone) :
    (∀ n : ℕ, respDist a (respondingIter a d (n + 1)) ≤ respDist a (respondingIter a d n))
    ∧ respDist a (respondingIter a d ⌈respDist a d / 0.0003⌉₊) < 0.0002
    ∧ (∀ t : ℝ, d.status = DroneStatus.responding →
        moveDrone t (some a) d = respondingUpdate a d) := by
  refine ⟨?_, respondingIter_arrives a d, ?_⟩
  · intro n
    exact respondingUpdate_dist_le a (respondingIter a d n)
  · intro t hst
    simp only [moveDrone, hst]

/-- Claim C6 witness: the tick-to-responding-move bridge applied to a concrete
responding drone. -/
theorem C6_monotone_convergence_witness :
    moveDrone 0 (some demoAlert) busyDrone = respondingUpdate demoAlert busyDrone :=
  (C6_monotone_convergence demoAlert busyDrone).2.2 0 rfl

/-! Claim C3. -/

/-- Claim C3: alert creation is guarded - the spawn transition only fires when
no alert is active - ticks and dispatch never change the active alert, the
alert is cleared exactly by the post-arrival settle transition, which requires
the arrived flag set by the responding drone's arrival, and every state
(hence every reachable state) holds at most one active alert. -/
theorem C3_single_alert :
    (∀ (s : SimState) (a : Alert) (s' : SimState), Step s (.spawn a) s' → s.alert = none)
    ∧ (∀ (s : SimState) (t : ℝ) (now : ℤ), (tickFn t now s).alert = s.alert)
    ∧ (∀ (s : SimState) (i : String) (m : Bool) (now : ℤ),
        (handleDispatch s i m now).alert = s.alert)
    ∧ (∀ (s : SimState) (i : String) (s' : SimState),
        Step s (.resolve i) s' → s.droneArrived = true ∧ s'.alert = none)
    ∧ (∀ s s' : SimState, Reaches s s' → alertCount s' ≤ 1) := by
  refine ⟨?_, ?_, ?_, ?_, ?_⟩
  · intro s a s' h
    cases h with
    | spawn _ hnone => exact hnone
  · intro s t now
    exact tickFn_alert t now s
  · intro s i m now
    rfl
  · intro s i s' h
    cases h with
    | resolve _ harr => exact ⟨harr, rfl⟩
  · intro s s' _
    unfold alertCount
    cases s'.alert <;> simp

/-! Claim C7. -/

/-- Claim C7 (counterexample): after a successful first dispatch of `DXD-001`
(alert active, drone available), an immediate second dispatch of the same id
appends another dispatch log entry - the state is changed beyond the effect of
the first call, so dispatch is not idempotent. -/
theorem C7_idempotence_cex :
    (handleDispatch (spawnAlert (initialState 4) demoAlert) "DXD-001" false 0).logEntries.length
      = 2
    ∧ (handleDispatch
        (handleDispatch (spawnAlert (initialState 4) demoAlert) "DXD-001" false 0)
        "DXD-001" false 0).logEntries.length = 3 := by
  exact ⟨by decide, by decide⟩

/-- Claim C7 (amended): a second dispatch of the same drone id right after a
first one leaves the drone list, responding id, dispatch status, arrived flag,
alert and metrics unchanged, but it re-records the dispatch start time with
the new clock value and - whenever the drone exists and an alert is active -
appends one more dispatch log entry, so the state is not literally unchanged
beyond the first call. -/
theorem C7_second_dispatch (s : SimState) (i : String) (m₁ m₂ : Bool) (t₁ t₂ : ℤ) :
    (handleDispatch (handleDispatch s i m₁ t₁) i m₂ t₂).drones
        = (handleDispatch s i m₁ t₁).drones
    ∧ (handleDispatch (handleDispatch s i m₁ t₁) i m₂ t₂).respondingDroneId
        = (handleDispatch s i m₁ t₁).respondingDroneId
    ∧ (handleDispatch (handleDispatch s i m₁ t₁) i m₂ t₂).dispatchStatus
        = (handleDispatch s i m₁ t₁).dispatchStatus
    ∧ (handleDispatch (handleDispatch s i m₁ t₁) i m₂ t₂).droneArrived
        = (handleDispatch s i m₁ t₁).droneArrived
    ∧ (handleDispatch (handleDispatch s i m₁ t₁) i m₂ t₂).alert
        = (handleDispatch s i m₁ t₁).alert
    ∧ (handleDispatch (handleDispatch s i m₁ t₁) i m₂ t₂).metrics
        = (handleDispatch s i m₁ t₁).metrics
    ∧ (handleDispatch (handleDispatch s i m₁ t₁) i m₂ t₂).dispatchStartTime = some t₂
    ∧ ((((handleDispatch s i m₁ t₁).drones.find? (fun d => d.id = i)).isSome = true) →
        (handleDispatch s i m₁ t₁).alert.isSome = true →
        (handleDispatch (handleDispatch s i m₁ t₁) i m₂ t₂).logEntries.length
          = (handleDispatch s i m₁ t₁).logEntries.length + 1) := by
  refine ⟨?_, rfl, rfl, rfl, rfl, rfl, rfl, ?_⟩
  · show List.map _ (List.map _ s.drones) = List.map _ s.drones
    rw [List.map_map]
    apply List.map_congr_left
    intro d _
    by_cases hd : d.id = i <;> simp [Function.comp_apply, hd]
  · intro hfind halert
    rw [Option.isSome_iff_exists] at hfind halert
    obtain ⟨d₁, hd₁⟩ := hfind
    obtain ⟨a₁, ha₁⟩ := halert
    conv_lhs => rw [handleDispatch]
    simp only [hd₁, ha₁, List.length_append, List.length_cons, List.length_nil]

/-- Claim C7 witness: the log-growth part of the amended claim applied to the
concrete first dispatch from the initial state with an active alert. -/
theorem C7_second_dispatch_witness :
    (handleDispatch
        (handleDispatch (spawnAlert (initialState 4) demoAlert) "DXD-001" false 0)
        "DXD-001" false 7).logEntries.length
      = (handleDispatch (spawnAlert (initialState 4) demoAlert) "DXD-001" false 0).logEntries.length
        + 1 :=
  (C7_second_dispatch (spawnAlert (initialState 4) demoAlert) "DXD-001" false false 0 7).2.2.2.2.2.2.2
    (by decide) rfl

/-! Claim C4. -/

/-- Claim C4: for every drone list and alert, `findNearestDrone` is a pure
function that returns `null` exactly when every drone is `responding`
(vacuously so for an empty roster); otherwise it returns a non-responding
drone of the list that minimizes the planar Euclidean distance to the alert,
and among equidistant candidates it is the first encountered in list order:
every available drone earlier in the list is strictly farther, every later
one at least as far. -/
theorem C4_nearest_drone (drones : List Drone) (a : Alert) :
    (findNearestDrone drones (some a) = none
        ↔ ∀ d ∈ drones, d.status = DroneStatus.responding)
    ∧ (∀ r : Drone, findNearestDrone drones (some a) = some r →
        r ∈ drones ∧ r.status ≠ DroneStatus.responding
        ∧ (∀ e ∈ drones, e.status ≠ DroneStatus.responding → panelDist a r ≤ panelDist a e)
        ∧ ∃ pre post,
            drones.filter (fun d => d.status ≠ DroneStatus.responding) = pre ++ r :: post
            ∧ (∀ x ∈ pre, panelDist a r < panelDist a x)
            ∧ (∀ x ∈ post, panelDist a r ≤ panelDist a x)) := by
  constructor
  · cases hf : drones.filter (fun d => d.status ≠ DroneStatus.responding) with
    | nil =>
      rw [findNearestDrone_nil drones a hf]
      constructor
      · intro _ d hd
        have := List.filter_eq_nil_iff.mp hf d hd
        simpa using this
      · intro _
        rfl
    | cons first rest =>
      rw [findNearestDrone_cons drones a first rest hf]
      constructor
      · intro hcontra
        exact absurd hcontra (by simp)
      · intro hall
        exfalso
        have hmem : first ∈ drones.filter (fun d => d.status ≠ DroneStatus.responding) := by
          rw [hf]
          exact List.mem_cons_self first rest
        have hmf := List.mem_filter.mp hmem
        have h2 := hall first hmf.1
        have h3 := hmf.2
        simp [h2] at h3
  · intro r hr
    cases hf : drones.filter (fun d => d.status ≠ DroneStatus.responding) with
    | nil =>
      rw [findNearestDrone_nil drones a hf] at hr
      exact absurd hr (by simp)
    | cons first rest =>
      rw [findNearestDrone_cons drones a first rest hf] at hr
      have hreq : rest.foldl (nearestFold a) first = r := Option.some.inj hr
      obtain ⟨pre, post, hdec, hpre, hpost⟩ := foldl_nearestFold_firstMin a rest first
      rw [hreq] at hdec hpre hpost
      have hrfil : r ∈ drones.filter (fun d => d.status ≠ DroneStatus.responding) := by
        rw [hf, hdec]
        exact List.mem_append_right pre (List.mem_cons_self r post)
      have hmf := List.mem_filter.mp hrfil
      refine ⟨hmf.1, by simpa using hmf.2, ?_, pre, post, ?_, hpre, hpost⟩
      · intro e he hes
        have hef : e ∈ drones.filter (fun d => d.status ≠ DroneStatus.responding) :=
          List.mem_filter.mpr ⟨he, by simpa using hes⟩
        rw [hf, hdec] at hef
        rcases List.mem_append.mp hef with hpe | hpe
        · exact le_of_lt (hpre e hpe)
        · rcases List.mem_cons.mp hpe with rfl | hpe'
          · exact le_rfl
          · exact hpost e hpe'
      · exact hdec

/-- Claim C4 witness: applied to a roster whose only drone is responding, the
query returns `null`. -/
theorem C4_nearest_drone_witness :
    findNearestDrone [busyDrone] (some demoAlert) = none :=
  (C4_nearest_drone [busyDrone] demoAlert).1.mpr (by decide)

/-! Claim C8. -/

/-- Claim C8: on a tick, a patrolling drone with a patrol configuration has
its battery set to `max 20 (battery - 0.001)`; for a battery within the
0 - 100 range and at least the floor 20, the battery never increases, stays
within 0 - 100, and the drone stays patrolling (so the bound applies tick
after tick). -/
theorem C8_battery (t : ℝ) (al : Option Alert) (d : Drone)
    (cLat cLng radius sp offset : ℝ)
    (hst : d.status = DroneStatus.patrolling)
    (hcfg : droneConfigs d.id = some (.patrol cLat cLng radius sp offset))
    (hlo : 20 ≤ d.battery) (hhi : d.battery ≤ 100) :
    (moveDrone t al d).battery = max 20 (d.battery - 0.001)
    ∧ (moveDrone t al d).status = DroneStatus.patrolling
    ∧ (moveDrone t al d).battery ≤ d.battery
    ∧ 0 ≤ (moveDrone t al d).battery ∧ (moveDrone t al d).battery ≤ 100 := by
  have hmv : moveDrone t al d = patrolUpdate t cLat cLng radius sp offset d := by
    cases al with
    | none => simp [moveDrone, hst, hcfg]
    | some a => simp [moveDrone, hst, hcfg]
  rw [hmv]
  unfold patrolUpdate
  dsimp only
  refine ⟨rfl, rfl, ?_, ?_, ?_⟩
  · exact max_le (by linarith) (by linarith)
  · have h20 : (20:ℝ) ≤ max 20 (d.battery - 0.001) := le_max_left _ _
    linarith
  · exact max_le (by norm_num) (by linarith)

/-- Claim C8 witness: applied to the concrete patrolling drone `DXD-001`
(battery 87). -/
theorem C8_battery_witness :
    (moveDrone 0 none droneAlpha).battery = max 20 (droneAlpha.battery - 0.001)
    ∧ (moveDrone 0 none droneAlpha).status = DroneStatus.patrolling
    ∧ (moveDrone 0 none droneAlpha).battery ≤ droneAlpha.battery
    ∧ 0 ≤ (moveDrone 0 none droneAlpha).battery
    ∧ (moveDrone 0 none droneAlpha).battery ≤ 100 :=
  C8_battery 0 none droneAlpha 33.4265 (-111.9325) 0.0012 0.1 0 rfl rfl
    (by norm_num [droneAlpha]) (by norm_num [droneAlpha])

/-! Claim C9. -/

/-- Claim C9: the arrival block records
`Math.round((now - dispatchStart) / 1000)` - the elapsed wall-clock time
rounded to the nearest second, so dispatch at 0 ms and arrival at 12000 ms
records 12 - appends it to the sample list, and recomputes the rolling
average as the rounded arithmetic mean of all samples. -/
theorem C9_response_metrics (m : Metrics) (now start : ℤ) :
    (updateMetricsOnArrival m (arrivalResponseTime now start)).responseTimes
        = m.responseTimes ++ [arrivalResponseTime now start]
    ∧ (updateMetricsOnArrival m (arrivalResponseTime now start)).avgResponseTime
        = round (((m.responseTimes ++ [arrivalResponseTime now start]).sum : ℚ)
            / ((m.responseTimes ++ [arrivalResponseTime now start]).length : ℚ))
    ∧ arrivalResponseTime now start = round (((now - start : ℤ) : ℚ) / 1000)
    ∧ arrivalResponseTime 12000 0 = 12 := by
  refine ⟨rfl, rfl, rfl, ?_⟩
  show round (((12000 - 0 : ℤ) : ℚ) / 1000) = 12
  norm_num [round_eq]

/-! Claim C10. -/

/-- Claim C10: the exposed average starts at the sentinel `-1` ("no responses
yet") with an empty sample list, and once a non-negative sample is appended
to a list of non-negative samples the recomputed average is non-negative -
hence never `-1` again - and the samples stay non-negative, so the argument
applies to every later arrival as well. -/
theorem C10_avg_sentinel (r : ℕ) (m : Metrics) (rt : ℤ) :
    (initialMetrics r).avgResponseTime = -1
    ∧ (initialMetrics r).responseTimes = []
    ∧ ((∀ x ∈ m.responseTimes, (0:ℤ) ≤ x) → 0 ≤ rt →
        0 ≤ (updateMetricsOnArrival m rt).avgResponseTime
        ∧ (updateMetricsOnArrival m rt).avgResponseTime ≠ -1
        ∧ ∀ x ∈ (updateMetricsOnArrival m rt).responseTimes, (0:ℤ) ≤ x) := by
  refine ⟨rfl, rfl, ?_⟩
  intro hall hrt
  have hsamples : ∀ x ∈ m.responseTimes ++ [rt], (0:ℤ) ≤ x := by
    intro x hx
    rcases List.mem_append.mp hx with h | h
    · exact hall x h
    · rw [List.mem_singleton] at h
      rw [h]
      exact hrt
  have hsum : (0:ℤ) ≤ (m.responseTimes ++ [rt]).sum := List.sum_nonneg hsamples
  have havg : 0 ≤ (updateMetricsOnArrival m rt).avgResponseTime := by
    show 0 ≤ round (((m.responseTimes ++ [rt]).sum : ℚ) / ((m.responseTimes ++ [rt]).length : ℚ))
    have hq : (0:ℚ) ≤ ((m.responseTimes ++ [rt]).sum : ℚ) / ((m.responseTimes ++ [rt]).length : ℚ) :=
      div_nonneg (by exact_mod_cast hsum) (by positivity)
    rw [round_eq]
    exact Int.floor_nonneg.mpr (by linarith)
  refine ⟨havg, ?_, ?_⟩
  · intro hcontra
    rw [hcontra] at havg
    norm_num at havg
  · exact hsamples

/-- Claim C10 witness: applied to the concrete initial metrics (empty sample
list) and the sample 12. -/
theorem C10_avg_sentinel_witness :
    0 ≤ (updateMetricsOnArrival (initialMetrics 4) 12).avgResponseTime
    ∧ (updateMetricsOnArrival (initialMetrics 4) 12).avgResponseTime ≠ -1
    ∧ ∀ x ∈ (updateMetricsOnArrival (initialMetrics 4) 12).responseTimes, (0:ℤ) ≤ x :=
  (C10_avg_sentinel 4 (initialMetrics 4) 12).2.2 (by decide) (by decide)

/-- Claim C3 witness: the reachable-state bound applied along a concrete spawn
step from the initial state. -/
theorem C3_single_alert_witness :
    alertCount (spawnAlert (initialState 4) demoAlert) ≤ 1 :=
  C3_single_alert.2.2.2.2 (initialState 4) (spawnAlert (initialState 4) demoAlert)
    (Relation.ReflTransGen.single ⟨Label.spawn demoAlert, Step.spawn _ demoAlert rfl⟩)

end DXD
